import Mathlib

/-!
Verification of the Forwardarr port-synchronization service.

The webhook client and the health/readiness HTTP handlers are embedded from
the repository's Go source. The Port File Reader, the qBittorrent API client
and the sync/watcher loop are not present in the source tree available here;
those components are modelled from the specification, as noted on each
definition.
-/

namespace Forwardarr

/-- Decidable equality for `Except`, so that concrete runs of the embedded
operations can be checked by `decide`. -/
instance {ε α : Type} [DecidableEq ε] [DecidableEq α] : DecidableEq (Except ε α) := fun x y =>
  match x, y with
  | .ok a, .ok b =>
      if h : a = b then .isTrue (by rw [h]) else .isFalse (by simp [h])
  | .error a, .error b =>
      if h : a = b then .isTrue (by rw [h]) else .isFalse (by simp [h])
  | .ok _, .error _ => .isFalse (by simp)
  | .error _, .ok _ => .isFalse (by simp)

/-- Whitespace as trimmed by Go's strings.TrimSpace, restricted to Latin-1
code points (the Unicode space property of higher runes is omitted; none of
the strings involved here contain such runes). -/
def isGoSpace (c : Char) : Bool :=
  c = '\t' || c = '\n' || c = '\x0b' || c = '\x0c' || c = '\r' || c = ' ' ||
  c = '\x85' || c = '\xa0'

/-- strings.TrimSpace: drop leading and trailing whitespace. Stated over the
character list of the string so that concrete runs reduce. -/
def trimSpace (s : String) : String :=
  ⟨((s.data.dropWhile isGoSpace).reverse.dropWhile isGoSpace).reverse⟩

/-! ## Webhook client (embedded from the webhook package) -/

/-- Webhook payload format, `Template` in the webhook package. -/
inductive Template
  | json
  | discord
  | slack
  | gotify
  deriving DecidableEq, Repr

/-- The webhook notification payload, `Payload` in the webhook package. The
timestamp produced by time.Now().UTC() is abstracted as a natural number. -/
structure Payload where
  event : String
  timestamp : Nat
  oldPort : Int
  newPort : Int
  message : String
  deriving DecidableEq, Repr

/-- The webhook `Client`. The Go field `events` is a `map[string]bool` whose
keys are the configured event names after `strings.TrimSpace`; here it is the
list of those trimmed names (the map is non-empty iff the list is non-empty,
and key lookup is list membership). -/
structure Client where
  url : String
  timeout : Nat
  template : Template
  events : List String
  deriving DecidableEq, Repr

/-- `NewClient`: stores the configuration, trimming whitespace around each
configured event name before inserting it in the event map. -/
def NewClient (url : String) (timeout : Nat) (template : Template)
    (events : List String) : Client :=
  ⟨url, timeout, template, events.map trimSpace⟩

/-- A small JSON value type used to state what the template formatters build
before marshalling. -/
inductive Json
  | str (s : String)
  | num (n : Int)
  | bool (b : Bool)
  | arr (xs : List Json)
  | obj (fields : List (String × Json))

/-- `formatDiscord`: the Discord-shaped payload object. -/
def formatDiscord (p : Payload) : Json :=
  .obj [("content", .str p.message),
        ("embeds", .arr [
          .obj [("title", .str "Port Change Notification"),
                ("description", .str p.message),
                ("color", .num 3447003),
                ("fields", .arr [
                  .obj [("name", .str "Event"), ("value", .str p.event),
                        ("inline", .bool true)],
                  .obj [("name", .str "Old Port"),
                        ("value", .str (toString p.oldPort)),
                        ("inline", .bool true)],
                  .obj [("name", .str "New Port"),
                        ("value", .str (toString p.newPort)),
                        ("inline", .bool true)]]),
                ("timestamp", .num p.timestamp)]])]

/-- `formatSlack`: the Slack-shaped payload object. -/
def formatSlack (p : Payload) : Json :=
  .obj [("text", .str p.message),
        ("blocks", .arr [
          .obj [("type", .str "section"),
                ("text", .obj [("type", .str "mrkdwn"),
                  ("text", .str ("*Port Change Notification*\n" ++ p.message))])],
          .obj [("type", .str "section"),
                ("fields", .arr [
                  .obj [("type", .str "mrkdwn"),
                        ("text", .str ("*Event:*\n" ++ p.event))],
                  .obj [("type", .str "mrkdwn"),
                        ("text", .str ("*Old Port:*\n" ++ toString p.oldPort))],
                  .obj [("type", .str "mrkdwn"),
                        ("text", .str ("*New Port:*\n" ++ toString p.newPort))],
                  .obj [("type", .str "mrkdwn"),
                        ("text", .str ("*Time:*\n" ++ toString p.timestamp))]])]])]

/-- `formatGotify`: the Gotify-shaped payload object. -/
def formatGotify (p : Payload) : Json :=
  .obj [("title", .str "Port Change Notification"),
        ("message", .str p.message),
        ("priority", .num 5),
        ("extras", .obj [("event", .str p.event),
                         ("old_port", .num p.oldPort),
                         ("new_port", .num p.newPort),
                         ("timestamp", .num p.timestamp)])]

/-- The body built by `send` for a template: the Go switch dispatches on the
template and marshals the default (plain JSON) shape otherwise. On these
shapes `json.Marshal` cannot fail, so the marshal-error branch of `send` is
unreachable and has no counterpart here. -/
def formatPayload (t : Template) (p : Payload) : Json :=
  match t with
  | .discord => formatDiscord p
  | .slack => formatSlack p
  | .gotify => formatGotify p
  | .json => .obj [("event", .str p.event),
                   ("timestamp", .num p.timestamp),
                   ("old_port", .num p.oldPort),
                   ("new_port", .num p.newPort),
                   ("message", .str p.message)]

/-- Outcome of the HTTP POST issued by `send`: the transport fails (connection
error or context timeout), or a response with some status code completes. -/
inductive HttpOutcome
  | failure
  | response (statusCode : Nat)
  deriving DecidableEq, Repr

/-- `send`: format the payload for the configured template, POST it, and
return a non-nil error exactly when the transport fails or the completed
response's status code is outside [200, 300). `none` models a nil error. -/
def send (c : Client) (p : Payload) (outcome : HttpOutcome) : Option String :=
  let _jsonData := formatPayload c.template p
  match outcome with
  | .failure => some "failed to send webhook"
  | .response code =>
      if code < 200 ∨ code ≥ 300 then
        some ("webhook returned non-2xx status: " ++ toString code)
      else
        none

/-- `SendPortChange`: if the configured event map is non-empty and does not
contain "port_changed", the notification is filtered out (no HTTP request, nil
error); otherwise the payload is built and sent. The boolean records whether
the HTTP request was issued; `now` abstracts time.Now().UTC(); `outcome` is
what the POST would return if issued. -/
def SendPortChange (c : Client) (now : Nat) (oldPort newPort : Int)
    (outcome : HttpOutcome) : Bool × Option String :=
  let event := "port_changed"
  if c.events.length > 0 && !(c.events.contains event) then
    (false, none)
  else
    (true, send c
      ⟨event, now, oldPort, newPort,
       "Port changed from " ++ toString oldPort ++ " to " ++ toString newPort⟩
      outcome)

/-! ## Health and readiness handlers (embedded from internal/server/handlers.go) -/

/-- An HTTP response as written by a handler: status code and body. -/
structure HttpResponse where
  status : Nat
  body : String
  deriving DecidableEq, Repr

/-- `healthHandler`: 503 "Service not running" unless the server's `isRunning`
flag is set, else 200 "OK". -/
def healthHandler (isRunning : Bool) : HttpResponse :=
  if !isRunning then ⟨503, "Service not running"⟩
  else ⟨200, "OK"⟩

/-- `readyHandler`: calls the qbit client's Ping() at request time;
`pingResult` is that call's outcome (`none` = no error). A Ping error yields
503 "qBittorrent not reachable", otherwise 200 "Ready". -/
def readyHandler (pingResult : Option String) : HttpResponse :=
  match pingResult with
  | some _ => ⟨503, "qBittorrent not reachable"⟩
  | none => ⟨200, "Ready"⟩

/-! ## Port File Reader (modelled from the spec) -/

/-- Failure reasons of the Port File Reader. -/
inductive PortFileError
  | parseError
  | rangeError
  deriving DecidableEq, Repr

/-- Accumulate a non-empty all-digit character sequence into its base-10
value; `none` when the sequence is empty or holds a non-digit. -/
def digitsToNat (cs : List Char) : Option Nat :=
  if cs.isEmpty then none
  else cs.foldlM (fun n c => if c.isDigit then some (n * 10 + (c.toNat - 48)) else none) 0

/-- Modelled from the spec: the Port File Reader's integer parse (the
`readPortFromFile` helper of `internal/sync/watcher.go` is not in the source
tree). The spec asks that the trimmed content "parse as a base-10 integer":
an optional sign followed by at least one decimal digit, mapped to its
mathematical value. -/
def parseBase10 (s : String) : Option Int :=
  match s.data with
  | '-' :: rest => (digitsToNat rest).map (fun n => -(n : Int))
  | '+' :: rest => (digitsToNat rest).map (fun n => (n : Int))
  | cs => (digitsToNat cs).map (fun n => (n : Int))

/-- Modelled from the spec: the Port File Reader (`readPortFromFile` in
`internal/sync/watcher.go`, not in the source tree). Leading and trailing
whitespace is trimmed; the trimmed content must parse as a base-10 integer,
else `ParseError`; the integer must lie in [1, 65535], else `RangeError`. -/
def readPortFromFile (contents : String) : Except PortFileError Nat :=
  match parseBase10 (trimSpace contents) with
  | none => .error .parseError
  | some n => if 1 ≤ n ∧ n ≤ 65535 then .ok n.toNat else .error .rangeError

/-! ## qBittorrent API client (modelled from the spec) -/

/-- The API client's error taxonomy (§7 of the spec). -/
inductive QbitError
  | authError
  | authExpired
  | transportError
  | protocolError
  deriving DecidableEq, Repr

/-- Outcome of the login HTTP exchange: transport failure, or a completed
response with a status code and a body. -/
inductive LoginOutcome
  | failure
  | response (status : Nat) (body : String)
  deriving DecidableEq, Repr

/-- Modelled from the spec: `Authenticate()` (the `Login` method of
`internal/qbit/client.go` is not in the source tree). It succeeds only if the
response status is success and the body is not the backend's literal failure
marker, recorded in the repository documentation as the body "Fails." inside
an HTTP 200 response; on success the issued session credential (`newCred`) is
stored and returned. Transport failure yields `TransportError`; a completed
response signalling bad credentials yields `AuthError`. -/
def authenticate (newCred : Nat) (outcome : LoginOutcome) : Except QbitError Nat :=
  match outcome with
  | .failure => .error .transportError
  | .response status body =>
      if 200 ≤ status ∧ status < 300 then
        if body = "Fails." then .error .authError else .ok newCred
      else .error .authError

/-- Outbound calls observable at the transport during one logical
GetPort/SetPort call: an underlying request for the original operation
carrying the session credential it was sent with, or an Authenticate call. -/
inductive CallEvent
  | request (cred : Nat)
  | authCall
  deriving DecidableEq, Repr

/-- Number of underlying requests for the original operation in a trace. -/
def countRequests (tr : List CallEvent) : Nat :=
  (tr.filter (fun e => match e with | .request _ => true | .authCall => false)).length

/-- Number of Authenticate calls in a trace. -/
def countAuthCalls (tr : List CallEvent) : Nat :=
  (tr.filter (fun e => match e with | .authCall => true | .request _ => false)).length

/-- Modelled from the spec: the re-authentication protocol of GetPort/SetPort
(`internal/qbit/client.go` is not in the source tree). Per §4.1: on an
unauthorized response the client performs exactly one Authenticate() and, if
that succeeds, retries the original request exactly once with the new
credential; the retry's result is surfaced unchanged with no further retries;
any other first outcome is surfaced directly. `server k c` is the backend's
response to the k-th underlying request when sent with credential `c`;
`login` is the login exchange's outcome should Authenticate run, and
`newCred` the credential it would issue. Returns the call result together
with the trace of outbound calls. -/
def doAuthenticated {α : Type} (cred newCred : Nat) (login : LoginOutcome)
    (server : Nat → Nat → Except QbitError α) : Except QbitError α × List CallEvent :=
  match server 0 cred with
  | .ok v => (.ok v, [.request cred])
  | .error .authExpired =>
      match authenticate newCred login with
      | .error e => (.error e, [.request cred, .authCall])
      | .ok c => (server 1 c, [.request cred, .authCall, .request c])
  | .error e => (.error e, [.request cred])

/-! ## Sync engine (modelled from the spec) -/

/-- The outcome of one sync cycle (§3 Sync Outcome). -/
inductive SyncOutcome
  | applied
  | skipped
  | failed
  deriving DecidableEq, Repr

/-- The externally visible effects of one sync cycle: how many GetPort calls
were made, the ports passed to SetPort, the (old, new) pairs given to the
webhook collaborator, and how often the error counter was incremented. -/
structure CycleEffects where
  getPortCalls : Nat
  setPortCalls : List Nat
  webhookEvents : List (Nat × Nat)
  errorIncrements : Nat
  deriving DecidableEq, Repr

/-- Modelled from the spec: one sync cycle (`syncPort` in
`internal/sync/watcher.go`, not in the source tree). §4.4: ReadFile →
FetchRemote → Compare → ApplyRemote; each failing step logs, increments the
error counter once and returns to Idle; equal ports skip with no remote
write and no webhook; a successful apply notifies the webhook with the old
and new ports. `fileContents` is `none` when the port file cannot be read;
`getPort` and `setPort` are the API client's responses for this cycle. -/
def syncPort (fileContents : Option String)
    (getPort : Except QbitError Nat)
    (setPort : Nat → Except QbitError Unit) : SyncOutcome × CycleEffects :=
  match fileContents with
  | none => (.failed, ⟨0, [], [], 1⟩)
  | some contents =>
      match readPortFromFile contents with
      | .error _ => (.failed, ⟨0, [], [], 1⟩)
      | .ok port =>
          match getPort with
          | .error _ => (.failed, ⟨1, [], [], 1⟩)
          | .ok remote =>
              if port = remote then
                (.skipped, ⟨1, [], [], 0⟩)
              else
                match setPort port with
                | .ok _ => (.applied, ⟨1, [port], [(remote, port)], 0⟩)
                | .error _ => (.failed, ⟨1, [port], [], 1⟩)

/-! ## Change detector trigger coalescing (modelled from the spec) -/

/-- The detector's coalescing state: whether a sync cycle is in flight and
whether one trigger is queued behind it. -/
structure DetectorState where
  inFlight : Bool
  pending : Bool
  deriving DecidableEq, Repr

/-- Events at the detector's single consumption point: a trigger signal from
either source (filesystem notification or timer tick), or completion of the
in-flight sync cycle. -/
inductive DetectorEvent
  | trigger
  | cycleDone
  deriving DecidableEq, Repr

/-- Modelled from the spec: the Change Detector's depth-one coalescing queue
(`internal/sync/watcher.go` is not in the source tree). §4.3/§9: a trigger
during an in-flight cycle sets the single pending flag (and is dropped if the
flag is already set); a trigger while idle starts a cycle at once; when the
in-flight cycle completes, one queued cycle starts if the flag is set. The
returned number counts sync cycles started by this event (0 or 1). -/
def detectorStep (st : DetectorState) (ev : DetectorEvent) : DetectorState × Nat :=
  match ev with
  | .trigger =>
      if st.inFlight then (⟨true, true⟩, 0)
      else (⟨true, st.pending⟩, 1)
  | .cycleDone =>
      if st.pending then (⟨true, false⟩, 1)
      else (⟨false, false⟩, 0)

/-- Run the detector over a sequence of events, counting the sync cycles
started along the way. -/
def detectorRun (st : DetectorState) : List DetectorEvent → DetectorState × Nat
  | [] => (st, 0)
  | ev :: evs =>
      let r := detectorStep st ev
      let rest := detectorRun r.1 evs
      (rest.1, r.2 + rest.2)

/-! ## Helper lemmas -/

/-- Any number of triggers arriving while a cycle is in flight and one is
already pending leaves the pending flag set and starts no cycle. -/
theorem detectorRun_trigger_pending (k : Nat) :
    detectorRun ⟨true, true⟩ (List.replicate k DetectorEvent.trigger) = (⟨true, true⟩, 0) := by
  induction k with
  | zero => rfl
  | succ n ih => simp [List.replicate_succ, detectorRun, detectorStep, ih]

/-- Runs of the detector compose over list append, summing started cycles. -/
theorem detectorRun_append (st : DetectorState) (xs ys : List DetectorEvent) :
    detectorRun st (xs ++ ys)
      = ((detectorRun (detectorRun st xs).1 ys).1,
         (detectorRun st xs).2 + (detectorRun (detectorRun st xs).1 ys).2) := by
  induction xs generalizing st with
  | nil => simp [detectorRun]
  | cons e es ih => simp [detectorRun, ih, Nat.add_assoc]

/-- `send` returns a nil error exactly when the POST completed with a status
code in [200, 300). -/
theorem send_none_iff (c : Client) (p : Payload) (outcome : HttpOutcome) :
    send c p outcome = none ↔
      ∃ code, outcome = HttpOutcome.response code ∧ 200 ≤ code ∧ code < 300 := by
  cases outcome with
  | failure => simp [send]
  | response code =>
      by_cases hc : code < 200 ∨ code ≥ 300
      · have hsend : send c p (HttpOutcome.response code)
            = some ("webhook returned non-2xx status: " ++ toString code) := by
          simp [send, hc]
        rw [hsend]
        constructor
        · intro h
          simp at h
        · rintro ⟨code2, heq, hlo, hhi⟩
          cases heq
          exfalso
          rcases hc with hc1 | hc1 <;> omega
      · have hsend : send c p (HttpOutcome.response code) = none := by
          simp [send, hc]
        rw [hsend]
        push_neg at hc
        exact ⟨fun _ => ⟨code, rfl, hc.1, hc.2⟩, fun _ => rfl⟩

/-! ## Claim theorems -/

/-- Claim C1: for the webhook client's `SendPortChange`, an empty configured
event-filter set means the notification is always sent; a non-empty set not
containing "port_changed" means no HTTP request is made and nil is returned;
a set containing "port_changed" means the notification is sent. -/
theorem c1_event_filtering (c : Client) (now : Nat) (oldPort newPort : Int)
    (outcome : HttpOutcome) :
    (c.events = [] → (SendPortChange c now oldPort newPort outcome).1 = true) ∧
    (c.events ≠ [] → c.events.contains "port_changed" = false →
      SendPortChange c now oldPort newPort outcome = (false, none)) ∧
    (c.events.contains "port_changed" = true →
      (SendPortChange c now oldPort newPort outcome).1 = true) := by
  refine ⟨?_, ?_, ?_⟩
  · intro h
    simp [SendPortChange, h]
  · intro h1 h2
    have hlen : 0 < c.events.length := by
      cases hev : c.events with
      | nil => exact absurd hev h1
      | cons a l => simp [hev]
    have h2m : "port_changed" ∉ c.events := by simpa using h2
    simp [SendPortChange, hlen, h2m]
  · intro h
    have hm : "port_changed" ∈ c.events := by simpa using h
    simp [SendPortChange, hm]

/-- Witness for claim C1: a client configured only for "sync_error" makes no
request and returns nil on a port change. -/
theorem c1_event_filtering_witness :
    SendPortChange (NewClient "http://example.com/webhook" 5 Template.json ["sync_error"])
      0 8080 9090 (HttpOutcome.response 200) = (false, none) :=
  (c1_event_filtering (NewClient "http://example.com/webhook" 5 Template.json ["sync_error"])
      0 8080 9090 (HttpOutcome.response 200)).2.1 (by decide) (by decide)

/-- Claim C2: the Port File Reader returns the trimmed input's integer value
exactly when it parses in base 10 and lies in [1, 65535]; a failed parse
yields ParseError, a parsed value out of range yields RangeError, and no
other input yields a port. -/
theorem c2_port_file_reader (contents : String) :
    (∀ n : Int, parseBase10 (trimSpace contents) = some n →
      (1 ≤ n ∧ n ≤ 65535 → readPortFromFile contents = .ok n.toNat) ∧
      (¬(1 ≤ n ∧ n ≤ 65535) → readPortFromFile contents = .error .rangeError)) ∧
    (parseBase10 (trimSpace contents) = none →
      readPortFromFile contents = .error .parseError) ∧
    (∀ p, readPortFromFile contents = .ok p →
      ∃ n : Int, parseBase10 (trimSpace contents) = some n ∧
        1 ≤ n ∧ n ≤ 65535 ∧ n.toNat = p) := by
  refine ⟨?_, ?_, ?_⟩
  · intro n hn
    constructor
    · intro hr
      simp [readPortFromFile, hn, hr]
    · intro hr
      simp [readPortFromFile, hn, hr]
  · intro h
    simp [readPortFromFile, h]
  · intro p hp
    cases h : parseBase10 (trimSpace contents) with
    | none => simp [readPortFromFile, h] at hp
    | some n =>
        by_cases hb : 1 ≤ n ∧ n ≤ 65535
        · refine ⟨n, rfl, hb.1, hb.2, ?_⟩
          simp [readPortFromFile, h, hb] at hp
          exact hp
        · simp [readPortFromFile, h, hb] at hp

/-- Witness for claim C2: the file content " 54321\n" yields port 54321. -/
theorem c2_port_file_reader_witness :
    readPortFromFile " 54321\n" = .ok 54321 := by
  have h := ((c2_port_file_reader " 54321\n").1 54321 (by decide)).1 (by decide)
  simpa using h

/-- Claim C3: a GetPort/SetPort call whose first underlying request is
rejected as unauthorized performs exactly one Authenticate call and, that
succeeding, retries exactly once with the new credential; a successful retry
makes the overall call succeed with one Authenticate call and two underlying
requests. -/
theorem c3_reauth_retry_success {α : Type} (cred newCred : Nat) (login : LoginOutcome)
    (server : Nat → Nat → Except QbitError α) (v : α)
    (hfirst : server 0 cred = .error .authExpired)
    (hauth : authenticate newCred login = .ok newCred)
    (hretry : server 1 newCred = .ok v) :
    doAuthenticated cred newCred login server
        = (.ok v, [.request cred, .authCall, .request newCred]) ∧
    countAuthCalls [.request cred, .authCall, .request newCred] = 1 ∧
    countRequests [.request cred, .authCall, .request newCred] = 2 := by
  refine ⟨?_, rfl, rfl⟩
  simp [doAuthenticated, hfirst, hauth, hretry]

/-- Witness for claim C3: a concrete backend that rejects the first request
and accepts the retried one. -/
theorem c3_reauth_retry_success_witness :
    doAuthenticated 1 2 (LoginOutcome.response 200 "Ok.")
        (fun k _ => if k = 0 then Except.error QbitError.authExpired
                    else Except.ok (42 : Nat))
      = (.ok 42, [.request 1, .authCall, .request 2]) ∧
    countAuthCalls [.request 1, .authCall, .request 2] = 1 ∧
    countRequests [.request 1, .authCall, .request 2] = 2 :=
  c3_reauth_retry_success 1 2 (LoginOutcome.response 200 "Ok.")
    (fun k _ => if k = 0 then Except.error QbitError.authExpired
                else Except.ok (42 : Nat)) 42
    rfl rfl rfl

/-- Claim C4: when the single retry after a successful re-authentication also
fails, the call surfaces that error unchanged after exactly two underlying
requests (no further retries), and the sync cycle using that call reports
failure and increments the error counter exactly once. -/
theorem c4_reauth_exhaustion (cred newCred : Nat) (login : LoginOutcome)
    (server : Nat → Nat → Except QbitError Nat) (e : QbitError)
    (contents : String) (port : Nat)
    (hfile : readPortFromFile contents = .ok port)
    (hfirst : server 0 cred = .error .authExpired)
    (hauth : authenticate newCred login = .ok newCred)
    (hretry : server 1 newCred = .error e) :
    doAuthenticated cred newCred login server
        = (.error e, [.request cred, .authCall, .request newCred]) ∧
    countRequests [.request cred, .authCall, .request newCred] = 2 ∧
    (∀ setPort, syncPort (some contents) (doAuthenticated cred newCred login server).1 setPort
        = (.failed, ⟨1, [], [], 1⟩)) := by
  have hdo : doAuthenticated cred newCred login server
      = (.error e, [.request cred, .authCall, .request newCred]) := by
    simp [doAuthenticated, hfirst, hauth, hretry]
  refine ⟨hdo, rfl, ?_⟩
  intro setPort
  rw [hdo]
  simp [syncPort, hfile]

/-- Witness for claim C4: a concrete backend that rejects the first request
and fails the retry with a transport error. -/
theorem c4_reauth_exhaustion_witness :
    doAuthenticated 1 2 (LoginOutcome.response 200 "Ok.")
        (fun k _ => if k = 0 then (Except.error QbitError.authExpired : Except QbitError Nat)
                    else Except.error QbitError.transportError)
      = (.error .transportError, [.request 1, .authCall, .request 2]) ∧
    syncPort (some "54321")
        (doAuthenticated 1 2 (LoginOutcome.response 200 "Ok.")
          (fun k _ => if k = 0 then (Except.error QbitError.authExpired : Except QbitError Nat)
                      else Except.error QbitError.transportError)).1
        (fun _ => Except.ok ())
      = (.failed, ⟨1, [], [], 1⟩) := by
  have h := c4_reauth_exhaustion 1 2 (LoginOutcome.response 200 "Ok.")
    (fun k _ => if k = 0 then (Except.error QbitError.authExpired : Except QbitError Nat)
                else Except.error QbitError.transportError)
    QbitError.transportError "54321" 54321 (by decide) rfl rfl rfl
  exact ⟨h.1, h.2.2 (fun _ => Except.ok ())⟩

/-- Claim C5: Authenticate succeeds only when the response status is a
success and the body is not the backend's literal failure marker; in
particular HTTP 200 with body "Fails." yields AuthError. -/
theorem c5_authenticate_failure_marker (newCred : Nat) (outcome : LoginOutcome) :
    (∀ c, authenticate newCred outcome = .ok c →
      ∃ status body, outcome = .response status body ∧
        200 ≤ status ∧ status < 300 ∧ body ≠ "Fails.") ∧
    authenticate newCred (LoginOutcome.response 200 "Fails.") = .error .authError := by
  constructor
  · intro c hc
    cases outcome with
    | failure => simp [authenticate] at hc
    | response status body =>
        refine ⟨status, body, rfl, ?_⟩
        by_cases hs : 200 ≤ status ∧ status < 300
        · by_cases hb : body = "Fails."
          · simp [authenticate, hs, hb] at hc
          · exact ⟨hs.1, hs.2, hb⟩
        · simp [authenticate, hs] at hc
  · rfl

/-- Witness for claim C5: a successful login at 204 with a normal body, and
the 200 "Fails." login rejected as AuthError. -/
theorem c5_authenticate_failure_marker_witness :
    (∃ status body, LoginOutcome.response 204 "Ok." = LoginOutcome.response status body ∧
      200 ≤ status ∧ status < 300 ∧ body ≠ "Fails.") ∧
    authenticate 7 (LoginOutcome.response 200 "Fails.") = .error .authError :=
  ⟨(c5_authenticate_failure_marker 7 (LoginOutcome.response 204 "Ok.")).1 7 (by decide),
   (c5_authenticate_failure_marker 7 (LoginOutcome.response 200 "Fails.")).2⟩

/-- Claim C6: in a cycle reaching Compare, equal observed and remote ports
yield a skipped outcome with no SetPort call and no webhook notification;
different ports with a successful SetPort yield an applied outcome and one
webhook notification carrying the old and new ports. -/
theorem c6_compare_apply (contents : String) (port remote : Nat)
    (setPort : Nat → Except QbitError Unit)
    (hread : readPortFromFile contents = .ok port) :
    (port = remote →
      syncPort (some contents) (.ok remote) setPort = (.skipped, ⟨1, [], [], 0⟩)) ∧
    (port ≠ remote → setPort port = .ok () →
      syncPort (some contents) (.ok remote) setPort
        = (.applied, ⟨1, [port], [(remote, port)], 0⟩)) := by
  constructor
  · intro h
    simp [syncPort, hread, h]
  · intro h hset
    simp [syncPort, hread, h, hset]

/-- Witness for claim C6: the two spec scenarios, file "54321\n" against
remote 12345 (applied, webhook (12345, 54321)) and file "54321" against
remote 54321 (skipped, no SetPort, no webhook). -/
theorem c6_compare_apply_witness :
    syncPort (some "54321\n") (.ok 12345) (fun _ => Except.ok ())
        = (.applied, ⟨1, [54321], [(12345, 54321)], 0⟩) ∧
    syncPort (some "54321") (.ok 54321) (fun _ => Except.ok ())
        = (.skipped, ⟨1, [], [], 0⟩) :=
  ⟨(c6_compare_apply "54321\n" 54321 12345 (fun _ => Except.ok ()) (by decide)).2
      (by decide) rfl,
   (c6_compare_apply "54321" 54321 54321 (fun _ => Except.ok ()) (by decide)).1 rfl⟩

/-- Claim C7: a cycle whose port-file read fails with ParseError or
RangeError aborts with no GetPort call, no SetPort call, and one
error-counter increment. -/
theorem c7_file_error_aborts (contents : String) (err : PortFileError)
    (hread : readPortFromFile contents = .error err) :
    ∀ getPort setPort,
      syncPort (some contents) getPort setPort = (.failed, ⟨0, [], [], 1⟩) := by
  intro getPort setPort
  simp [syncPort, hread]

/-- Witness for claim C7: the out-of-range file content "999999". -/
theorem c7_file_error_aborts_witness :
    syncPort (some "999999") (.ok 1) (fun _ => Except.ok ())
        = (.failed, ⟨0, [], [], 1⟩) :=
  c7_file_error_aborts "999999" PortFileError.rangeError (by decide)
    (.ok 1) (fun _ => Except.ok ())

/-- Claim C8: N ≥ 1 triggers arriving while a cycle is in flight start no
concurrent cycle and collapse into a single pending trigger; after the
in-flight cycle completes, exactly one additional cycle starts. -/
theorem c8_trigger_coalescing (n : Nat) (hn : 1 ≤ n) :
    detectorRun ⟨true, false⟩ (List.replicate n DetectorEvent.trigger)
        = (⟨true, true⟩, 0) ∧
    detectorRun ⟨true, false⟩
        (List.replicate n DetectorEvent.trigger ++ [DetectorEvent.cycleDone])
      = (⟨true, false⟩, 1) := by
  obtain ⟨k, rfl⟩ : ∃ k, n = k + 1 := ⟨n - 1, by omega⟩
  have h1 : detectorRun ⟨true, false⟩ (List.replicate (k + 1) DetectorEvent.trigger)
      = (⟨true, true⟩, 0) := by
    simp [List.replicate_succ, detectorRun, detectorStep, detectorRun_trigger_pending k]
  refine ⟨h1, ?_⟩
  rw [detectorRun_append, h1]
  simp [detectorRun, detectorStep]

/-- Witness for claim C8: three triggers during an in-flight cycle queue one
pending trigger and lead to exactly one further cycle on completion. -/
theorem c8_trigger_coalescing_witness :
    detectorRun ⟨true, false⟩ (List.replicate 3 DetectorEvent.trigger)
        = (⟨true, true⟩, 0) ∧
    detectorRun ⟨true, false⟩
        (List.replicate 3 DetectorEvent.trigger ++ [DetectorEvent.cycleDone])
      = (⟨true, false⟩, 1) :=
  c8_trigger_coalescing 3 (by decide)

/-- Claim C9: the health handler returns 200 exactly when the running flag is
set and 503 otherwise; the readiness handler returns 200 exactly when the
request-time Ping call returns no error and otherwise 503 with the body
"qBittorrent not reachable". -/
theorem c9_health_ready (isRunning : Bool) (pingResult : Option String) :
    ((healthHandler isRunning).status = 200 ↔ isRunning = true) ∧
    (isRunning = false → healthHandler isRunning = ⟨503, "Service not running"⟩) ∧
    ((readyHandler pingResult).status = 200 ↔ pingResult = none) ∧
    (∀ e, pingResult = some e →
      readyHandler pingResult = ⟨503, "qBittorrent not reachable"⟩) := by
  cases isRunning <;> cases pingResult <;>
    simp [healthHandler, readyHandler]

/-- Witness for claim C9: a stopped engine reports 503 on health, and a
failing Ping reports 503 "qBittorrent not reachable" on readiness. -/
theorem c9_health_ready_witness :
    healthHandler false = ⟨503, "Service not running"⟩ ∧
    readyHandler (some "connection refused") = ⟨503, "qBittorrent not reachable"⟩ :=
  ⟨(c9_health_ready false (some "connection refused")).2.1 rfl,
   (c9_health_ready false (some "connection refused")).2.2.2 "connection refused" rfl⟩

/-- Claim C10: for an attempted webhook delivery, `SendPortChange` returns
nil exactly when the POST completed with a status code in [200, 300);
completed responses outside that range and transport or timeout failures
yield a non-nil error. -/
theorem c10_send_error_semantics (c : Client) (now : Nat) (oldPort newPort : Int)
    (outcome : HttpOutcome)
    (hsent : (SendPortChange c now oldPort newPort outcome).1 = true) :
    ((SendPortChange c now oldPort newPort outcome).2 = none ↔
      ∃ code, outcome = HttpOutcome.response code ∧ 200 ≤ code ∧ code < 300) := by
  by_cases hcond : 0 < c.events.length ∧ "port_changed" ∉ c.events
  · exfalso
    simp [SendPortChange, hcond] at hsent
  · have h2 : (SendPortChange c now oldPort newPort outcome).2
        = send c
            ⟨"port_changed", now, oldPort, newPort,
             "Port changed from " ++ toString oldPort ++ " to " ++ toString newPort⟩
            outcome := by
      simp [SendPortChange, hcond]
    rw [h2, send_none_iff]

/-- Witness for claim C10: a delivery completing with status 204 returns
nil. -/
theorem c10_send_error_semantics_witness :
    (SendPortChange (NewClient "http://example.com/webhook" 5 Template.json ["port_changed"])
        0 8080 9090 (HttpOutcome.response 204)).2 = none :=
  (c10_send_error_semantics
      (NewClient "http://example.com/webhook" 5 Template.json ["port_changed"])
      0 8080 9090 (HttpOutcome.response 204) (by decide)).mpr
    ⟨204, rfl, by decide, by decide⟩

end Forwardarr
